import Mathlib

/-!
Verification of the session/connection lifecycle layer of the mexc-futures-sdk
repository: a shallow embedding of SessionManager (session.py) and
MexcFuturesWebSocket (websocket.py), together with the configuration dataclasses
of utils.py and the channel constants of constants.py, and proofs of the spec
claims about them.

Conventions of the embedding:
- awaiting network calls and sleeps have no effect on manager state; their
  outcomes (ping success or failure, connect success or failure, received
  events) are passed in explicitly as data;
- transport handles are modelled by natural-number identities drawn from a
  counter kept in the state, so that handle recreation is observable;
- every operation returns, besides the new state, the observable outputs it
  produced (frames sent, events emitted, exceptions as Except errors).
-/

namespace MexcSession

/-- The configuration attributes that the SessionManager code reads and that
matter for its control flow (session.py).  The sleep durations do not affect
state, so ping_interval is carried only for completeness. -/
structure SessCfg where
  pingInterval : ℚ
  maxIdlePings : ℕ

/-- An httpx.AsyncClient handle: an identity plus its is_closed flag. -/
structure ClientHandle where
  id : ℕ
  closed : Bool
deriving DecidableEq

/-- State of a SessionManager: the optional client, the idle ping counter,
whether the keep-alive task is live, and the fresh-handle counter. -/
structure SessionState where
  client : Option ClientHandle
  idlePingCount : ℕ
  pingTask : Bool
  nextId : ℕ
deriving DecidableEq

/-- State after SessionManager.__init__. -/
def initState : SessionState :=
  { client := none, idlePingCount := 0, pingTask := false, nextId := 0 }

/-- is_active property: the client exists and is not closed. -/
def is_active (s : SessionState) : Bool :=
  match s.client with
  | none => false
  | some c => !c.closed

/-- The body of the not-is_active branch of get_client: _create_client gives a
fresh handle, _warmup has no state effect (failures are only logged), and
_start_keepalive resets the idle counter and starts the ping task. -/
def createAndWarm (s : SessionState) : ClientHandle × SessionState :=
  let h : ClientHandle := { id := s.nextId, closed := false }
  (h, { client := some h, idlePingCount := 0, pingTask := true, nextId := s.nextId + 1 })

/-- get_client: return the active client, creating and warming one if needed. -/
def get_client (s : SessionState) : ClientHandle × SessionState :=
  match s.client with
  | some c => if c.closed then createAndWarm s else (c, s)
  | none => createAndWarm s

/-- notify_activity: reset the idle-ping counter. -/
def notify_activity (s : SessionState) : SessionState :=
  { s with idlePingCount := 0 }

/-- close: cancel the keep-alive task, close the client, drop the reference. -/
def close (s : SessionState) : SessionState :=
  { s with pingTask := false, client := none }

/-- Outcome of the keep-alive GET request of one cycle. -/
inductive PingOutcome
  | ok
  | err
deriving DecidableEq

/-- How one keep-alive cycle ended. -/
inductive CycleExit
  | goOn       -- the while loop continues
  | idleExpiry -- idle counter reached max_idle_pings: session let expire
  | notActive  -- the client vanished or was closed: the loop just returns
  | pingFail   -- the ping request failed: connection torn down
deriving DecidableEq

/-- One iteration of the while body of _keepalive_loop.  The leading sleep has
no state effect.  When the loop returns, the task is finished, which we record
as pingTask := false; teardown exits also run _close_client and drop the client. -/
def keepaliveCycle (cfg : SessCfg) (s : SessionState) (p : PingOutcome) :
    SessionState × CycleExit :=
  if cfg.maxIdlePings ≤ s.idlePingCount then
    ({ s with client := none, pingTask := false }, .idleExpiry)
  else if is_active s = false then
    ({ s with pingTask := false }, .notActive)
  else
    match p with
    | .ok => ({ s with idlePingCount := s.idlePingCount + 1 }, .goOn)
    | .err => ({ s with client := none, pingTask := false }, .pingFail)

/-- Run the keep-alive loop for a finite list of ping outcomes, stopping early
if a cycle exits the loop.  CycleExit.goOn in the result means the loop is
still running after consuming the whole list. -/
def runKeepalive (cfg : SessCfg) (s : SessionState) :
    List PingOutcome → SessionState × CycleExit
  | [] => (s, .goOn)
  | p :: ps =>
    let r := keepaliveCycle cfg s p
    if r.2 = .goOn then runKeepalive cfg r.1 ps else r

/-- Run the keep-alive loop when the caller invokes notify_activity between
every two consecutive cycles: after each continuing cycle the counter is reset
before the next cycle runs. -/
def runWithActivity (cfg : SessCfg) (s : SessionState) :
    List PingOutcome → SessionState × CycleExit
  | [] => (s, .goOn)
  | p :: ps =>
    let r := keepaliveCycle cfg s p
    if r.2 = .goOn then runWithActivity cfg (notify_activity r.1) ps else r

/-- The keep-alive run of exactly max_idle_pings cycles, all pings succeeding. -/
def idleRun (cfg : SessCfg) (s : SessionState) : SessionState × CycleExit :=
  runKeepalive cfg s (List.replicate cfg.maxIdlePings .ok)

end MexcSession

namespace MexcCfg

/-- Field names declared by the SDKConfig dataclass (utils.py, lines 66 to 86). -/
def sdkConfigFields : List String :=
  ["auth_token", "base_url", "timeout", "user_agent", "custom_headers", "log_level"]

/-- Field names declared by the WebSocketConfig dataclass (utils.py, 89 to 110). -/
def webSocketConfigFields : List String :=
  ["api_key", "secret_key", "auto_reconnect", "reconnect_interval",
   "ping_interval", "log_level"]

/-- Config attribute names read by SessionManager: log_level in __init__,
the timeout/limit/transport fields in _create_client (session.py 69 to 102),
and the keep-alive parameters in _keepalive_loop (129 to 163). -/
def sessionManagerConfigReads : List String :=
  ["log_level", "connect_timeout", "read_timeout", "write_timeout", "pool_timeout",
   "max_connections", "max_keepalive_connections", "keepalive_expiry",
   "http2", "proxy", "base_url", "ping_interval", "max_idle_pings"]

/-- Config attribute names read by MexcFuturesWebSocket.connect
(websocket.py 152 to 172): only the proxy URL. -/
def wsConnectConfigReads : List String := ["proxy"]

/-- The configuration surface the spec lists for the REST session core, as the
attribute names the session code reads for it: connect/read/write/pool
timeouts, max pool size, max keep-alive connections, keep-alive expiry, ping
interval, max idle pings. -/
def specListedSessionReads : List String :=
  ["connect_timeout", "read_timeout", "write_timeout", "pool_timeout",
   "max_connections", "max_keepalive_connections", "keepalive_expiry",
   "ping_interval", "max_idle_pings"]

end MexcCfg

namespace MexcWs

/-- JSON values, as produced by json.loads on inbound frames and consumed by
json.dumps on outbound frames.  Numbers are modelled as integers (no claim
involves fractional payloads). -/
inductive JVal
  | jnull
  | jbool (b : Bool)
  | jnum (n : ℤ)
  | jstr (s : String)
  | jarr (elems : List JVal)
  | jobj (fields : List (String × JVal))

/-- First binding of a key in a JSON object field list. -/
def lookupPair : List (String × JVal) → String → Option JVal
  | [], _ => none
  | (k, v) :: rest, key => if k == key then some v else lookupPair rest key

/-- message.get(key) on a parsed message.  _handle_message is only ever fed
dict payloads in practice; on a non-dict this model yields none. -/
def jget (m : JVal) (key : String) : Option JVal :=
  match m with
  | .jobj fields => lookupPair fields key
  | _ => none

/-- The test channel == name for a Python value against a string literal:
true exactly when the value is that string. -/
def channelIs (channel : Option JVal) (name : String) : Bool :=
  match channel with
  | some (.jstr c) => c == name
  | _ => false

/-- Python str.startswith on character lists. -/
def listStarts : List Char → List Char → Bool
  | _, [] => true
  | [], _ :: _ => false
  | a :: as, b :: bs => a == b && listStarts as bs

/-- Python str.startswith. -/
def strStarts (s p : String) : Bool :=
  listStarts s.data p.data

/-- The guard "if channel and channel.startswith(p)": the channel must be a
truthy (non-empty) string starting with p.  A truthy non-string channel would
raise AttributeError in Python (caught by the receive loop); no claim depends
on that case and the model routes it to the data-update fallthrough. -/
def channelStarts (channel : Option JVal) (p : String) : Bool :=
  match channel with
  | some (.jstr c) => (c != "") && strStarts c p
  | _ => false

/-- channel.replace(p, ""), Python str.replace (all occurrences). -/
def stripChannel (channel : Option JVal) (p : String) : String :=
  match channel with
  | some (.jstr c) => c.replace p ""
  | _ => ""

/-- Python test value == 0 (also true for False, since False == 0 in Python). -/
def pyEqZero : JVal → Bool
  | .jnum n => n == 0
  | .jbool b => b == false
  | _ => false

/-- The login/filter acknowledgement success test:
data == "success" or (isinstance(data, dict) and data.get("code") == 0).
A missing data key gives None, which fails both tests. -/
def isSuccessData : Option JVal → Bool
  | some (.jstr s) => s == "success"
  | some (.jobj fields) =>
    match lookupPair fields "code" with
    | some v => pyEqZero v
    | none => false
  | _ => false

/-- The configuration attributes of WebSocketConfig that drive the modelled
control flow of MexcFuturesWebSocket. -/
structure WsCfg where
  apiKey : String
  secretKey : String
  autoReconnect : Bool
  reconnectInterval : ℚ
deriving DecidableEq

/-- State of a MexcFuturesWebSocket: the optional socket (as an identity),
the connected / logged-in / should-reconnect flags, the liveness of the three
background task slots, and the fresh-socket counter. -/
structure WsState where
  ws : Option ℕ
  isConnected : Bool
  isLoggedIn : Bool
  shouldReconnect : Bool
  pingTask : Bool
  recvTask : Bool
  reconnectTask : Bool
  nextSock : ℕ
deriving DecidableEq

/-- State after __init__: no socket, not connected, not logged in,
should_reconnect taken from config.auto_reconnect, no tasks. -/
def initWsState (cfg : WsCfg) : WsState :=
  { ws := none, isConnected := false, isLoggedIn := false,
    shouldReconnect := cfg.autoReconnect, pingTask := false, recvTask := false,
    reconnectTask := false, nextSock := 0 }

/-- Events delivered through _emit, as event name plus payload:
connectedEv carries None; disconnectedEv carries the dict with close code and
reason; pongEv, loginFailedEv, filterSetEv, filterFailedEv carry
message.get(data); loginEv carries the whole message; subscribedEv and
unsubscribedEv carry the stripped stream type plus data; errorDataEv is the
error event with Exception(str(data)) from an rs.error frame; errorRecvEv is
the error event from a receive-loop processing exception; dataEv is a mapped
data-update event; messageEv is the generic message event with the whole
envelope. -/
inductive Emitted
  | connectedEv
  | disconnectedEv (code : ℕ) (reason : String)
  | pongEv (d : Option JVal)
  | loginEv (msg : JVal)
  | loginFailedEv (d : Option JVal)
  | filterSetEv (d : Option JVal)
  | filterFailedEv (d : Option JVal)
  | subscribedEv (streamType : String) (d : Option JVal)
  | unsubscribedEv (streamType : String) (d : Option JVal)
  | errorDataEv (d : Option JVal)
  | errorRecvEv
  | dataEv (eventName : String) (d : Option JVal)
  | messageEv (msg : JVal)

/-- connect() succeeding: fresh socket, connected flag set, ping and receive
tasks started, connected event emitted.  The logged-in and should-reconnect
flags are not touched. -/
def connectOk (s : WsState) : WsState × List Emitted :=
  ({ s with ws := some s.nextSock, isConnected := true, pingTask := true,
            recvTask := true, nextSock := s.nextSock + 1 },
   [.connectedEv])

/-- disconnect(): disable auto-reconnect, cancel and await all background
tasks, close and drop the socket, clear connected and logged-in. -/
def disconnect (s : WsState) : WsState :=
  { ws := none, isConnected := false, isLoggedIn := false, shouldReconnect := false,
    pingTask := false, recvTask := false, reconnectTask := false,
    nextSock := s.nextSock }

/-- _send: if there is no socket or the client is not connected, the message
is dropped (only logged); otherwise the serialized frame goes out.  The result
is the transcript of frames actually sent. -/
def sendMsg (s : WsState) (m : JVal) : List JVal :=
  match s.ws with
  | none => []
  | some _ => if s.isConnected then [m] else []

/-- The exceptions raised synchronously by the client:
wsError models MexcWebSocketError (the spec calls the precondition case
AuthenticationRequiredError), valueError models ValueError. -/
inductive WsErr
  | wsError (message : String)
  | valueError (message : String)
deriving DecidableEq

/-- login(): raises when not connected, before anything is sent; otherwise
builds the HMAC-SHA256 signature over apiKey ++ reqTime with the secret key
(the hash primitive itself is library code, abstracted here as the function
argument sig) and sends the login frame.  Returns the outcome together with
the transcript of frames sent. -/
def login (cfg : WsCfg) (sig : String → String → String) (reqTime : String)
    (s : WsState) (subscribe : Bool) : Except WsErr Unit × List JVal :=
  if s.isConnected = false then
    (.error (.wsError "WebSocket not connected"), [])
  else
    let signature := sig cfg.secretKey (cfg.apiKey ++ reqTime)
    (.ok (), sendMsg s (.jobj
      [("subscribe", .jbool subscribe),
       ("method", .jstr "login"),
       ("param", .jobj
         [("apiKey", .jstr cfg.apiKey),
          ("signature", .jstr signature),
          ("reqTime", .jstr reqTime)])]))

/-- set_personal_filter(): raises when not logged in, before anything is
sent; otherwise sends the filter frame (a None filter list means []). -/
def set_personal_filter (s : WsState) (filters : Option (List JVal)) :
    Except WsErr Unit × List JVal :=
  if s.isLoggedIn = false then
    (.error (.wsError "Must login first before setting filters"), [])
  else
    (.ok (), sendMsg s (.jobj
      [("method", .jstr "personal.filter"),
       ("param", .jobj [("filters", .jarr (filters.getD []))])]))

/-- The WsChannels constants of constants.py. -/
def chTICKERS := "push.tickers"

def chTICKER := "push.ticker"

def chDEAL := "push.deal"

def chDEPTH := "push.depth"

def chKLINE := "push.kline"

def chFUNDING_RATE := "push.funding.rate"

def chINDEX_PRICE := "push.index.price"

def chFAIR_PRICE := "push.fair.price"

def chORDER := "push.personal.order"

def chORDER_DEAL := "push.personal.order.deal"

def chPOSITION := "push.personal.position"

def chASSET := "push.personal.asset"

def chSTOP_ORDER := "push.personal.stop.order"

def chSTOP_PLAN_ORDER := "push.personal.stop.planorder"

def chLIQUIDATE_RISK := "push.personal.liquidate.risk"

def chADL_LEVEL := "push.personal.adl.level"

def chRISK_LIMIT := "push.personal.risk.limit"

def chPLAN_ORDER := "push.personal.plan.order"

/-- The valid kline intervals of constants.py. -/
def KLINE_INTERVALS : List String :=
  ["Min1", "Min5", "Min15", "Min30", "Min60", "Hour4", "Hour8", "Day1",
   "Week1", "Month1"]

/-- The fixed channel to event-name table of _handle_data_update. -/
def channel_map : List (String × String) :=
  [(chTICKERS, "tickers"), (chTICKER, "ticker"), (chDEAL, "deal"),
   (chDEPTH, "depth"), (chKLINE, "kline"), (chFUNDING_RATE, "funding_rate"),
   (chINDEX_PRICE, "index_price"), (chFAIR_PRICE, "fair_price"),
   (chORDER, "order_update"), (chORDER_DEAL, "order_deal"),
   (chPOSITION, "position_update"), (chASSET, "asset_update"),
   (chSTOP_ORDER, "stop_order"), (chSTOP_PLAN_ORDER, "stop_plan_order"),
   (chLIQUIDATE_RISK, "liquidate_risk"), (chADL_LEVEL, "adl_level"),
   (chRISK_LIMIT, "risk_limit"), (chPLAN_ORDER, "plan_order")]

/-- First binding of a key in the channel table. -/
def lookupStr : List (String × String) → String → Option String
  | [], _ => none
  | (k, v) :: rest, key => if k == key then some v else lookupStr rest key

/-- _handle_data_update: dispatch through channel_map, falling back to the
generic message event with the full envelope; channel_map.get(channel) with a
missing or non-string channel finds no string key and also falls through. -/
def handle_data_update (s : WsState) (msg : JVal) : WsState × List Emitted :=
  match jget msg "channel" with
  | some (.jstr c) =>
    match lookupStr channel_map c with
    | some eventName => (s, [.dataEv eventName (jget msg "data")])
    | none => (s, [.messageEv msg])
  | _ => (s, [.messageEv msg])

/-- _handle_message: the dispatch chain over one parsed inbound message, in
source order: pong, rs.login, rs.personal.filter, channels opening with
rs.sub. and then rs.unsub., rs.error, then data updates. -/
def handle_message (s : WsState) (msg : JVal) : WsState × List Emitted :=
  let channel := jget msg "channel"
  if channelIs channel "pong" then
    (s, [.pongEv (jget msg "data")])
  else if channelIs channel "rs.login" then
    if isSuccessData (jget msg "data") then
      ({ s with isLoggedIn := true }, [.loginEv msg])
    else
      ({ s with isLoggedIn := false }, [.loginFailedEv (jget msg "data")])
  else if channelIs channel "rs.personal.filter" then
    if isSuccessData (jget msg "data") then
      (s, [.filterSetEv (jget msg "data")])
    else
      (s, [.filterFailedEv (jget msg "data")])
  else if channelStarts channel "rs.sub." then
    (s, [.subscribedEv (stripChannel channel "rs.sub.") (jget msg "data")])
  else if channelStarts channel "rs.unsub." then
    (s, [.unsubscribedEv (stripChannel channel "rs.unsub.") (jget msg "data")])
  else if channelIs channel "rs.error" then
    (s, [.errorDataEv (jget msg "data")])
  else
    handle_data_update s msg

/-- subscribe_to_all_tickers: sends sub.tickers.  Like all public
subscription helpers, it only delegates to _send and returns the transcript
of frames sent (none when not connected). -/
def subscribe_to_all_tickers (s : WsState) (gz : Bool) : List JVal :=
  sendMsg s (.jobj [("method", .jstr "sub.tickers"), ("param", .jobj []),
    ("gzip", .jbool gz)])

/-- unsubscribe_from_all_tickers: sends unsub.tickers. -/
def unsubscribe_from_all_tickers (s : WsState) : List JVal :=
  sendMsg s (.jobj [("method", .jstr "unsub.tickers"), ("param", .jobj [])])

/-- subscribe_to_ticker: sends sub.ticker for one symbol. -/
def subscribe_to_ticker (s : WsState) (symbol : String) : List JVal :=
  sendMsg s (.jobj [("method", .jstr "sub.ticker"),
    ("param", .jobj [("symbol", .jstr symbol)])])

/-- unsubscribe_from_ticker: sends unsub.ticker for one symbol. -/
def unsubscribe_from_ticker (s : WsState) (symbol : String) : List JVal :=
  sendMsg s (.jobj [("method", .jstr "unsub.ticker"),
    ("param", .jobj [("symbol", .jstr symbol)])])

/-- subscribe_to_deals: sends sub.deal for one symbol. -/
def subscribe_to_deals (s : WsState) (symbol : String) : List JVal :=
  sendMsg s (.jobj [("method", .jstr "sub.deal"),
    ("param", .jobj [("symbol", .jstr symbol)])])

/-- unsubscribe_from_deals: sends unsub.deal for one symbol. -/
def unsubscribe_from_deals (s : WsState) (symbol : String) : List JVal :=
  sendMsg s (.jobj [("method", .jstr "unsub.deal"),
    ("param", .jobj [("symbol", .jstr symbol)])])

/-- subscribe_to_depth: sends sub.depth. -/
def subscribe_to_depth (s : WsState) (symbol : String) (compress : Bool) :
    List JVal :=
  sendMsg s (.jobj [("method", .jstr "sub.depth"),
    ("param", .jobj [("symbol", .jstr symbol), ("compress", .jbool compress)])])

/-- subscribe_to_full_depth: sends sub.depth.full with a depth limit. -/
def subscribe_to_full_depth (s : WsState) (symbol : String) (limit : ℕ) :
    List JVal :=
  sendMsg s (.jobj [("method", .jstr "sub.depth.full"),
    ("param", .jobj [("symbol", .jstr symbol), ("limit", .jnum limit)])])

/-- unsubscribe_from_depth: sends unsub.depth. -/
def unsubscribe_from_depth (s : WsState) (symbol : String) : List JVal :=
  sendMsg s (.jobj [("method", .jstr "unsub.depth"),
    ("param", .jobj [("symbol", .jstr symbol)])])

/-- unsubscribe_from_full_depth: sends the frame with method usub.depth.full
(sic, as in the source). -/
def unsubscribe_from_full_depth (s : WsState) (symbol : String) : List JVal :=
  sendMsg s (.jobj [("method", .jstr "usub.depth.full"),
    ("param", .jobj [("symbol", .jstr symbol)])])

/-- subscribe_to_kline: raises ValueError on an invalid interval, otherwise
sends sub.kline. -/
def subscribe_to_kline (s : WsState) (symbol interval : String) :
    Except WsErr Unit × List JVal :=
  if KLINE_INTERVALS.contains interval = false then
    (.error (.valueError "Invalid interval"), [])
  else
    (.ok (), sendMsg s (.jobj [("method", .jstr "sub.kline"),
      ("param", .jobj [("symbol", .jstr symbol), ("interval", .jstr interval)])]))

/-- unsubscribe_from_kline: sends unsub.kline. -/
def unsubscribe_from_kline (s : WsState) (symbol : String) : List JVal :=
  sendMsg s (.jobj [("method", .jstr "unsub.kline"),
    ("param", .jobj [("symbol", .jstr symbol)])])

/-- subscribe_to_funding_rate: sends sub.funding.rate. -/
def subscribe_to_funding_rate (s : WsState) (symbol : String) : List JVal :=
  sendMsg s (.jobj [("method", .jstr "sub.funding.rate"),
    ("param", .jobj [("symbol", .jstr symbol)])])

/-- unsubscribe_from_funding_rate: sends unsub.funding.rate. -/
def unsubscribe_from_funding_rate (s : WsState) (symbol : String) : List JVal :=
  sendMsg s (.jobj [("method", .jstr "unsub.funding.rate"),
    ("param", .jobj [("symbol", .jstr symbol)])])

/-- subscribe_to_index_price: sends sub.index.price. -/
def subscribe_to_index_price (s : WsState) (symbol : String) : List JVal :=
  sendMsg s (.jobj [("method", .jstr "sub.index.price"),
    ("param", .jobj [("symbol", .jstr symbol)])])

/-- unsubscribe_from_index_price: sends unsub.index.price. -/
def unsubscribe_from_index_price (s : WsState) (symbol : String) : List JVal :=
  sendMsg s (.jobj [("method", .jstr "unsub.index.price"),
    ("param", .jobj [("symbol", .jstr symbol)])])

/-- subscribe_to_fair_price: sends sub.fair.price. -/
def subscribe_to_fair_price (s : WsState) (symbol : String) : List JVal :=
  sendMsg s (.jobj [("method", .jstr "sub.fair.price"),
    ("param", .jobj [("symbol", .jstr symbol)])])

/-- unsubscribe_from_fair_price: sends unsub.fair.price. -/
def unsubscribe_from_fair_price (s : WsState) (symbol : String) : List JVal :=
  sendMsg s (.jobj [("method", .jstr "unsub.fair.price"),
    ("param", .jobj [("symbol", .jstr symbol)])])

/-- What one blocking recv of the receive loop produced:
a parsed message, a transport-level closure with close code and reason, a task
cancellation, a JSON decode failure, or some other processing exception. -/
inductive RecvEvent
  | gotMsg (m : JVal)
  | closed (code : ℕ) (reason : String)
  | cancelled
  | badJson
  | recvErr

/-- One iteration of the _receive_loop while body, given what recv produced.
Returns the new state, the events emitted, whether the loop breaks, and
whether _schedule_reconnect is invoked (closure with should_reconnect set). -/
def recvStep (s : WsState) (e : RecvEvent) : WsState × List Emitted × Bool × Bool :=
  match e with
  | .gotMsg m =>
    let r := handle_message s m
    (r.1, r.2, false, false)
  | .closed code reason =>
    let s1 := { s with isConnected := false, isLoggedIn := false }
    (s1, [.disconnectedEv code reason], true, s1.shouldReconnect)
  | .cancelled => (s, [], true, false)
  | .badJson => (s, [], false, false)
  | .recvErr => (s, [.errorRecvEv], false, false)

/-- Result of driving _schedule_reconnect with a list of connect-attempt
outcomes: the final state, the events emitted, the sleep durations that
preceded each attempt, and whether another attempt is still pending once the
outcome list is exhausted. -/
structure ReconnectRun where
  state : WsState
  events : List Emitted
  delays : List ℚ
  pending : Bool

/-- _schedule_reconnect: sleep reconnect_interval, call connect(); on failure
log and, if should_reconnect is still set, recurse.  Driven by a finite list
of attempt outcomes; an empty list means the next sleep is still to come. -/
def schedule_reconnect (cfg : WsCfg) (s : WsState) :
    List Bool → ReconnectRun
  | [] => { state := s, events := [], delays := [], pending := true }
  | ok :: rest =>
    if ok then
      let r := connectOk s
      { state := r.1, events := r.2, delays := [cfg.reconnectInterval],
        pending := false }
    else if s.shouldReconnect then
      let r := schedule_reconnect cfg s rest
      { state := r.state, events := r.events,
        delays := cfg.reconnectInterval :: r.delays, pending := r.pending }
    else
      { state := s, events := [], delays := [cfg.reconnectInterval],
        pending := false }

/-- The state-relevant operations and environment events of one client, used
to state reachability invariants: a succeeding or failing connect() call, a
disconnect() call, one received and dispatched message, a transport closure
(with the inline reconnection driven by the given outcome list), and the
state-neutral calls login, set_personal_filter and the subscription helpers. -/
inductive WsOp
  | opConnect
  | opConnectFail
  | opDisconnect
  | opRecvMsg (m : JVal)
  | opRecvClosed (code : ℕ) (reason : String) (outcomes : List Bool)
  | opLoginCall
  | opFilterCall
  | opSubscribeCall

/-- State transition of one operation. -/
def wsStep (cfg : WsCfg) (s : WsState) : WsOp → WsState
  | .opConnect => (connectOk s).1
  | .opConnectFail => s
  | .opDisconnect => disconnect s
  | .opRecvMsg m => (handle_message s m).1
  | .opRecvClosed _ _ outcomes =>
    let s1 := { s with isConnected := false, isLoggedIn := false }
    if s1.shouldReconnect then (schedule_reconnect cfg s1 outcomes).state else s1
  | .opLoginCall => s
  | .opFilterCall => s
  | .opSubscribeCall => s

/-- Run a trace of operations from a state. -/
def wsRun (cfg : WsCfg) (s : WsState) (ops : List WsOp) : WsState :=
  ops.foldl (wsStep cfg) s

/-- Whether an operation processes a successful rs.login acknowledgement. -/
def isLoginSuccessOp : WsOp → Bool
  | .opRecvMsg m =>
    channelIs (jget m "channel") "rs.login" && isSuccessData (jget m "data")
  | _ => false

/-- Whether an operation contains a connect() that succeeds: an explicit
connect() call, or a transport closure whose inline reconnection eventually
succeeds. -/
def isConnectOp : WsOp → Bool
  | .opConnect => true
  | .opRecvClosed _ _ outcomes => outcomes.contains true
  | _ => false

/-- Whether an operation is a disconnection: an explicit disconnect() call or
a transport-level closure observed by the receive loop. -/
def isDisconnectionOp : WsOp → Bool
  | .opDisconnect => true
  | .opRecvClosed _ _ _ => true
  | _ => false

/-- A successful rs.login acknowledgement was processed after the most recent
(successful) connect: some ack lies strictly after every connect in the trace. -/
def ackAfterLastConnect (ops : List WsOp) : Bool :=
  (ops.reverse.takeWhile fun op => !isConnectOp op).any isLoginSuccessOp

/-- A successful rs.login acknowledgement was processed after the most recent
disconnection: some ack lies strictly after every disconnection in the trace. -/
def ackAfterLastDisconnection (ops : List WsOp) : Bool :=
  (ops.reverse.takeWhile fun op => !isDisconnectionOp op).any isLoginSuccessOp

/-- Claim C3 as stated: the two invariant clauses, plus the consequence that a
logged-in state means a successful acknowledgement was processed after the
most recent connect. -/
def claimC3 (cfg : WsCfg) : Prop :=
  (∀ (s : WsState) (op : WsOp),
      (wsStep cfg s op).isLoggedIn = true →
      s.isLoggedIn = true ∨ isLoginSuccessOp op = true)
  ∧ (∀ (s : WsState) (op : WsOp),
      isDisconnectionOp op = true → (wsStep cfg s op).isLoggedIn = false)
  ∧ (∀ ops : List WsOp,
      (wsRun cfg (initWsState cfg) ops).isLoggedIn = true →
      ackAfterLastConnect ops = true)

/-- A concrete configuration used by the witnesses below. -/
def demoCfg : WsCfg :=
  { apiKey := "ak", secretKey := "sk", autoReconnect := true,
    reconnectInterval := 5 }

/-- A concrete stand-in for the HMAC-SHA256 hex digest in the witnesses. -/
def demoSig : String → String → String := fun _ _ => "cafe"

/-- A concrete successful login acknowledgement frame. -/
def loginOkMsg : JVal :=
  .jobj [("channel", .jstr "rs.login"), ("data", .jstr "success")]

/-- A concrete connected and logged-in client state used by the witnesses. -/
def demoConnected : WsState :=
  { ws := some 0, isConnected := true, isLoggedIn := true, shouldReconnect := true,
    pingTask := true, recvTask := true, reconnectTask := false, nextSock := 1 }

/-- When there is no socket or the client is not connected, _send drops the
frame. -/
theorem sendMsg_drop {s : WsState} (h : s.isConnected = false ∨ s.ws = none)
    (m : JVal) : sendMsg s m = [] := by
  unfold sendMsg
  cases hw : s.ws with
  | none => rfl
  | some sock =>
    rcases h with h | h
    · simp [h]
    · rw [hw] at h
      exact Option.noConfusion h

/-- handle_data_update never changes the state. -/
theorem handle_data_update_state (s : WsState) (m : JVal) :
    (handle_data_update s m).1 = s := by
  unfold handle_data_update
  rcases jget m "channel" with _ | v
  · rfl
  · cases v with
    | jstr c =>
      cases h : lookupStr channel_map c <;> simp only [h]
    | jnull => rfl
    | jbool b => rfl
    | jnum n => rfl
    | jarr es => rfl
    | jobj fs => rfl

/-- How handle_message acts on the logged-in flag: an rs.login frame (not
shadowed by the pong check, which is impossible anyway) sets it to the success
test of its data; every other frame leaves it unchanged. -/
theorem handle_message_loggedIn (s : WsState) (m : JVal) :
    ((handle_message s m).1).isLoggedIn = s.isLoggedIn
    ∨ (channelIs (jget m "channel") "rs.login" = true
       ∧ ((handle_message s m).1).isLoggedIn = isSuccessData (jget m "data")) := by
  unfold handle_message
  by_cases h0 : channelIs (jget m "channel") "pong"
  · rw [if_pos h0]; left; rfl
  · rw [if_neg h0]
    by_cases h1 : channelIs (jget m "channel") "rs.login"
    · rw [if_pos h1]
      right
      refine ⟨h1, ?_⟩
      by_cases h2 : isSuccessData (jget m "data")
      · rw [if_pos h2, h2]
      · rw [if_neg h2]
        simp only [Bool.not_eq_true] at h2
        rw [h2]
    · rw [if_neg h1]
      left
      by_cases h2 : channelIs (jget m "channel") "rs.personal.filter"
      · rw [if_pos h2]
        by_cases h3 : isSuccessData (jget m "data") <;> simp [h3]
      · rw [if_neg h2]
        by_cases h3 : channelStarts (jget m "channel") "rs.sub."
        · rw [if_pos h3]
        · rw [if_neg h3]
          by_cases h4 : channelStarts (jget m "channel") "rs.unsub."
          · rw [if_pos h4]
          · rw [if_neg h4]
            by_cases h5 : channelIs (jget m "channel") "rs.error"
            · rw [if_pos h5]
            · rw [if_neg h5]
              rw [handle_data_update_state]

/-- schedule_reconnect never changes the logged-in flag (connect does not touch
it and failed attempts leave the state alone). -/
theorem schedule_reconnect_loggedIn (cfg : WsCfg) :
    ∀ (outcomes : List Bool) (s : WsState),
      ((schedule_reconnect cfg s outcomes).state).isLoggedIn = s.isLoggedIn := by
  intro outcomes
  induction outcomes with
  | nil => intro s; rfl
  | cons ok rest ih =>
    intro s
    unfold schedule_reconnect
    by_cases h : ok
    · rw [if_pos h]; rfl
    · rw [if_neg h]
      by_cases hr : s.shouldReconnect
      · rw [if_pos hr]; exact ih s
      · rw [if_neg hr]

/-- With should_reconnect set, a run of failing attempts leaves the state
unchanged, emits nothing, sleeps the same fixed interval before every attempt
and is still pending afterwards: no backoff and no retry cap. -/
theorem schedule_reconnect_all_fail (cfg : WsCfg) :
    ∀ (n : ℕ) (s : WsState), s.shouldReconnect = true →
      schedule_reconnect cfg s (List.replicate n false)
        = { state := s, events := [],
            delays := List.replicate n cfg.reconnectInterval, pending := true } := by
  intro n
  induction n with
  | zero => intro s _; rfl
  | succ n ih =>
    intro s hr
    rw [List.replicate_succ]
    unfold schedule_reconnect
    rw [if_neg (by simp), if_pos hr, ih s hr, List.replicate_succ]

/-- A channel that equals one string literal cannot equal a different one. -/
theorem channelIs_ne {ch : Option JVal} {a b : String}
    (h : channelIs ch a = true) (hne : a ≠ b) : channelIs ch b = false := by
  rcases ch with _ | v
  · simp [channelIs] at h
  · cases v with
    | jstr c =>
      simp only [channelIs, beq_iff_eq] at h ⊢
      simp [h, hne]
    | jnull => simp [channelIs] at h
    | jbool x => simp [channelIs] at h
    | jnum x => simp [channelIs] at h
    | jarr x => simp [channelIs] at h
    | jobj x => simp [channelIs] at h

/-- A transport closure followed by the whole inline reconnection leaves the
logged-in flag cleared. -/
theorem wsStep_closed_loggedIn (cfg : WsCfg) (s : WsState) (code : ℕ)
    (reason : String) (outcomes : List Bool) :
    (wsStep cfg s (.opRecvClosed code reason outcomes)).isLoggedIn = false := by
  simp only [wsStep]
  by_cases hr : ({ s with isConnected := false, isLoggedIn := false }
      : WsState).shouldReconnect
  · rw [if_pos hr, schedule_reconnect_loggedIn cfg outcomes]
  · rw [if_neg hr]

/-- The logged-in flag is set to true by a step only if it was already true or
the step processed a successful rs.login acknowledgement. -/
theorem wsStep_loggedIn_only_ack (cfg : WsCfg) (s : WsState) (op : WsOp)
    (h : (wsStep cfg s op).isLoggedIn = true) :
    s.isLoggedIn = true ∨ isLoginSuccessOp op = true := by
  cases op with
  | opConnect => exact Or.inl h
  | opConnectFail => exact Or.inl h
  | opDisconnect => exact Bool.noConfusion h
  | opRecvMsg m =>
    rcases handle_message_loggedIn s m with hsame | ⟨hch, hval⟩
    · left; rw [← hsame]; exact h
    · right
      have hv : isSuccessData (jget m "data") = true := by rw [← hval]; exact h
      simp [isLoginSuccessOp, hch, hv]
  | opRecvClosed code reason outcomes =>
    rw [wsStep_closed_loggedIn cfg s code reason outcomes] at h
    exact Bool.noConfusion h
  | opLoginCall => exact Or.inl h
  | opFilterCall => exact Or.inl h
  | opSubscribeCall => exact Or.inl h

/-- Every disconnection step clears the logged-in flag. -/
theorem wsStep_disconnection_loggedOut (cfg : WsCfg) (s : WsState) (op : WsOp)
    (h : isDisconnectionOp op = true) : (wsStep cfg s op).isLoggedIn = false := by
  cases op with
  | opDisconnect => rfl
  | opRecvClosed code reason outcomes =>
    exact wsStep_closed_loggedIn cfg s code reason outcomes
  | opConnect => simp [isDisconnectionOp] at h
  | opConnectFail => simp [isDisconnectionOp] at h
  | opRecvMsg m => simp [isDisconnectionOp] at h
  | opLoginCall => simp [isDisconnectionOp] at h
  | opFilterCall => simp [isDisconnectionOp] at h
  | opSubscribeCall => simp [isDisconnectionOp] at h

/-- Trace consequence: a logged-in state means some successful rs.login
acknowledgement was processed with no disconnection after it. -/
theorem wsRun_loggedIn_ack (cfg : WsCfg) :
    ∀ ops : List WsOp, (wsRun cfg (initWsState cfg) ops).isLoggedIn = true →
      ackAfterLastDisconnection ops = true := by
  intro ops
  induction ops using List.reverseRecOn with
  | nil => intro h; exact Bool.noConfusion h
  | append_singleton l op ih =>
    intro h
    have hstep : (wsStep cfg (wsRun cfg (initWsState cfg) l) op).isLoggedIn = true := by
      rw [wsRun, List.foldl_append, List.foldl_cons, List.foldl_nil] at h
      exact h
    unfold ackAfterLastDisconnection
    rw [List.reverse_append, List.reverse_singleton, List.singleton_append]
    by_cases hdisc : isDisconnectionOp op = true
    · rw [wsStep_disconnection_loggedOut cfg _ op hdisc] at hstep
      exact Bool.noConfusion hstep
    · have hdisc2 : isDisconnectionOp op = false := by
        revert hdisc; cases isDisconnectionOp op <;> simp
      rw [List.takeWhile_cons_of_pos (by simp [hdisc2]), List.any_cons]
      by_cases hack : isLoginSuccessOp op = true
      · rw [hack]; rfl
      · rcases wsStep_loggedIn_only_ack cfg _ op hstep with hold | hop
        · have := ih hold
          unfold ackAfterLastDisconnection at this
          rw [this, Bool.or_true]
        · exact absurd hop hack

end MexcWs

namespace MexcSession

/-- If all outcomes are successful pings and the counter has room up to
max_idle_pings, the loop keeps running, only incrementing the counter. -/
theorem runKeepalive_ok_replicate (cfg : SessCfg) (h : ClientHandle) (pt : Bool)
    (nid : ℕ) (hcl : h.closed = false) :
    ∀ n k, k + n ≤ cfg.maxIdlePings →
      runKeepalive cfg
          { client := some h, idlePingCount := k, pingTask := pt, nextId := nid }
          (List.replicate n .ok)
        = ({ client := some h, idlePingCount := k + n, pingTask := pt, nextId := nid },
           .goOn) := by
  intro n
  induction n with
  | zero => intro k _; simp [runKeepalive]
  | succ n ih =>
    intro k hk
    have h1 : ¬ cfg.maxIdlePings ≤ k := by omega
    have hcyc : keepaliveCycle cfg
        { client := some h, idlePingCount := k, pingTask := pt, nextId := nid } .ok
        = ({ client := some h, idlePingCount := k + 1, pingTask := pt, nextId := nid },
           .goOn) := by
      simp [keepaliveCycle, is_active, hcl, h1]
    rw [List.replicate_succ]
    simp only [runKeepalive, hcyc]
    rw [if_pos trivial, ih (k + 1) (by omega)]
    have harith : k + 1 + n = k + (n + 1) := by omega
    rw [harith]

/-- When is_active is false, get_client takes the creation branch. -/
theorem get_client_inactive {s : SessionState} (h : is_active s = false) :
    get_client s = createAndWarm s := by
  unfold get_client is_active at *
  cases hc : s.client with
  | none => rfl
  | some c =>
    rw [hc] at h
    simp only [Bool.not_eq_false'] at h
    simp [h]

/-- A cycle entered with a zero idle counter can never exit by idle expiry
when max_idle_pings is positive. -/
theorem keepaliveCycle_zero_not_idle (cfg : SessCfg) (hmax : 0 < cfg.maxIdlePings)
    (s : SessionState) (hcnt : s.idlePingCount = 0) (p : PingOutcome) :
    (keepaliveCycle cfg s p).2 ≠ .idleExpiry := by
  have h1 : ¬ cfg.maxIdlePings ≤ s.idlePingCount := by omega
  unfold keepaliveCycle
  rw [if_neg h1]
  by_cases ha : is_active s = false
  · rw [if_pos ha]; simp
  · rw [if_neg ha]; cases p <;> simp

/-- With notify_activity between consecutive cycles, no cycle of the run can
exit by idle expiry. -/
theorem runWithActivity_no_idle_expiry (cfg : SessCfg) (hmax : 0 < cfg.maxIdlePings) :
    ∀ (ps : List PingOutcome) (s : SessionState), s.idlePingCount = 0 →
      (runWithActivity cfg s ps).2 ≠ .idleExpiry := by
  intro ps
  induction ps with
  | nil => intro s _; simp [runWithActivity]
  | cons p ps ih =>
    intro s hcnt
    simp only [runWithActivity]
    by_cases hgo : (keepaliveCycle cfg s p).2 = .goOn
    · rw [if_pos hgo]
      exact ih _ rfl
    · rw [if_neg hgo]
      exact keepaliveCycle_zero_not_idle cfg hmax s hcnt p

/-- With notify_activity between consecutive cycles and all pings succeeding,
an active session runs forever unchanged: the loop never exits and the very
same connection is kept. -/
theorem runWithActivity_all_ok (cfg : SessCfg) (hmax : 0 < cfg.maxIdlePings) :
    ∀ (ps : List PingOutcome) (s : SessionState), s.idlePingCount = 0 →
      is_active s = true → (∀ p ∈ ps, p = PingOutcome.ok) →
      runWithActivity cfg s ps = (s, .goOn) := by
  intro ps
  induction ps with
  | nil => intro s _ _ _; rfl
  | cons p ps ih =>
    intro s hcnt hact hok
    have hp : p = PingOutcome.ok := hok p (List.mem_cons_self p ps)
    subst hp
    have h1 : ¬ cfg.maxIdlePings ≤ s.idlePingCount := by omega
    have hcyc : keepaliveCycle cfg s .ok
        = ({ s with idlePingCount := s.idlePingCount + 1 }, .goOn) := by
      unfold keepaliveCycle
      rw [if_neg h1, if_neg (by simp [hact])]
    simp only [runWithActivity, hcyc]
    rw [if_pos trivial]
    have hs : notify_activity { s with idlePingCount := s.idlePingCount + 1 } = s := by
      unfold notify_activity
      cases s
      simp_all
    rw [hs]
    exact ih s hcnt hact fun q hq => hok q (List.mem_cons_of_mem _ hq)

end MexcSession

/-- C1: with a connection freshly created by get_client and no notify_activity,
each keep-alive cycle sleeps, then tears down and exits if the idle counter has
reached max_idle_pings, and otherwise pings, incrementing the counter on
success and tearing down and exiting on failure; consequently the run of
max_idle_pings successful ping cycles leaves the counter at max_idle_pings with
the same connection, the very next cycle tears the connection down by idle
expiry, and the get_client call after that constructs a brand-new handle
(different identity from the original). -/
theorem c1_idle_expiry_and_recreation (cfg : MexcSession.SessCfg)
    (s0 : MexcSession.SessionState) (h0 : MexcSession.is_active s0 = false) :
    (∀ t : MexcSession.SessionState, MexcSession.is_active t = true →
        t.idlePingCount < cfg.maxIdlePings →
        MexcSession.keepaliveCycle cfg t .ok
            = ({ t with idlePingCount := t.idlePingCount + 1 }, .goOn)
        ∧ MexcSession.keepaliveCycle cfg t .err
            = ({ t with client := none, pingTask := false }, .pingFail))
    ∧ (∀ (t : MexcSession.SessionState) (p : MexcSession.PingOutcome),
        cfg.maxIdlePings ≤ t.idlePingCount →
        MexcSession.keepaliveCycle cfg t p
            = ({ t with client := none, pingTask := false }, .idleExpiry))
    ∧ ((MexcSession.idleRun cfg (MexcSession.get_client s0).2).2 = .goOn
       ∧ (MexcSession.idleRun cfg (MexcSession.get_client s0).2).1.client
           = some (MexcSession.get_client s0).1
       ∧ (MexcSession.idleRun cfg (MexcSession.get_client s0).2).1.idlePingCount
           = cfg.maxIdlePings
       ∧ (∀ p,
          (MexcSession.keepaliveCycle cfg
              (MexcSession.idleRun cfg (MexcSession.get_client s0).2).1 p).2 = .idleExpiry
          ∧ (MexcSession.keepaliveCycle cfg
              (MexcSession.idleRun cfg (MexcSession.get_client s0).2).1 p).1.client = none
          ∧ MexcSession.is_active (MexcSession.keepaliveCycle cfg
              (MexcSession.idleRun cfg (MexcSession.get_client s0).2).1 p).1 = false
          ∧ (MexcSession.get_client (MexcSession.keepaliveCycle cfg
                (MexcSession.idleRun cfg (MexcSession.get_client s0).2).1 p).1).1
              ≠ (MexcSession.get_client s0).1)) := by
  refine ⟨?_, ?_, ?_⟩
  · intro t ht hcnt
    have h1 : ¬ cfg.maxIdlePings ≤ t.idlePingCount := by omega
    constructor <;> simp [MexcSession.keepaliveCycle, h1, ht]
  · intro t p hcnt
    simp [MexcSession.keepaliveCycle, hcnt]
  · have hg1 : (MexcSession.get_client s0).1 = { id := s0.nextId, closed := false } := by
      rw [MexcSession.get_client_inactive h0]; rfl
    have hg2 : (MexcSession.get_client s0).2
        = { client := some { id := s0.nextId, closed := false }, idlePingCount := 0,
            pingTask := true, nextId := s0.nextId + 1 } := by
      rw [MexcSession.get_client_inactive h0]; rfl
    rw [hg1, hg2]
    have hrun : MexcSession.idleRun cfg
        { client := some { id := s0.nextId, closed := false }, idlePingCount := 0,
          pingTask := true, nextId := s0.nextId + 1 }
        = ({ client := some { id := s0.nextId, closed := false },
             idlePingCount := cfg.maxIdlePings, pingTask := true,
             nextId := s0.nextId + 1 }, .goOn) := by
      unfold MexcSession.idleRun
      have h := MexcSession.runKeepalive_ok_replicate cfg
        { id := s0.nextId, closed := false } true (s0.nextId + 1) rfl
        cfg.maxIdlePings 0 (by omega)
      simpa using h
    rw [hrun]
    refine ⟨rfl, rfl, rfl, ?_⟩
    intro p
    have hcyc : MexcSession.keepaliveCycle cfg
        { client := some { id := s0.nextId, closed := false },
          idlePingCount := cfg.maxIdlePings, pingTask := true,
          nextId := s0.nextId + 1 } p
        = ({ client := none, idlePingCount := cfg.maxIdlePings, pingTask := false,
             nextId := s0.nextId + 1 }, .idleExpiry) := by
      simp [MexcSession.keepaliveCycle]
    rw [hcyc]
    refine ⟨rfl, rfl, rfl, ?_⟩
    intro heq
    have hid : s0.nextId + 1 = s0.nextId := congrArg MexcSession.ClientHandle.id heq
    omega

/-- Witness for C1 at a concrete configuration and initial state. -/
theorem c1_witness :
    MexcSession.is_active MexcSession.initState = false
    ∧ (MexcSession.idleRun { pingInterval := 30, maxIdlePings := 3 }
          (MexcSession.get_client MexcSession.initState).2).2 = .goOn
    ∧ (MexcSession.idleRun { pingInterval := 30, maxIdlePings := 3 }
          (MexcSession.get_client MexcSession.initState).2).1.idlePingCount = 3 := by
  have h := c1_idle_expiry_and_recreation
    { pingInterval := 30, maxIdlePings := 3 } MexcSession.initState rfl
  exact ⟨rfl, h.2.2.1, h.2.2.2.2.1⟩

/-- C6: notify_activity resets the idle-ping counter to zero, and in every
execution of the keep-alive loop in which notify_activity is called between
every two consecutive cycles (the counter being zero when the loop starts,
as _start_keepalive guarantees), no cycle ever exits by idle expiry; moreover
while the pings succeed the very same connection is kept alive forever. -/
theorem c6_notify_activity_prevents_expiry (cfg : MexcSession.SessCfg)
    (s : MexcSession.SessionState) (hmax : 0 < cfg.maxIdlePings)
    (hcnt : s.idlePingCount = 0) :
    (∀ t : MexcSession.SessionState, (MexcSession.notify_activity t).idlePingCount = 0)
    ∧ (∀ ps, (MexcSession.runWithActivity cfg s ps).2 ≠ .idleExpiry)
    ∧ (∀ ps, MexcSession.is_active s = true →
        (∀ p ∈ ps, p = MexcSession.PingOutcome.ok) →
        MexcSession.runWithActivity cfg s ps = (s, .goOn)) := by
  refine ⟨fun t => rfl, ?_, ?_⟩
  · intro ps
    exact MexcSession.runWithActivity_no_idle_expiry cfg hmax ps s hcnt
  · intro ps hact hok
    exact MexcSession.runWithActivity_all_ok cfg hmax ps s hcnt hact hok

/-- Witness for C6 at a concrete configuration, session state and run. -/
theorem c6_witness :
    (0 < 3 ∧ (MexcSession.SessionState.idlePingCount
        { client := some { id := 0, closed := false }, idlePingCount := 0,
          pingTask := true, nextId := 1 }) = 0)
    ∧ (MexcSession.runWithActivity { pingInterval := 30, maxIdlePings := 3 }
        { client := some { id := 0, closed := false }, idlePingCount := 0,
          pingTask := true, nextId := 1 }
        (List.replicate 5 .ok)).2 ≠ .idleExpiry
    ∧ MexcSession.runWithActivity { pingInterval := 30, maxIdlePings := 3 }
        { client := some { id := 0, closed := false }, idlePingCount := 0,
          pingTask := true, nextId := 1 }
        (List.replicate 5 .ok)
      = ({ client := some { id := 0, closed := false }, idlePingCount := 0,
           pingTask := true, nextId := 1 }, .goOn) := by
  have h := c6_notify_activity_prevents_expiry { pingInterval := 30, maxIdlePings := 3 }
    { client := some { id := 0, closed := false }, idlePingCount := 0,
      pingTask := true, nextId := 1 } (by decide) rfl
  exact ⟨⟨by decide, rfl⟩, h.2.1 (List.replicate 5 .ok),
    h.2.2 (List.replicate 5 .ok) rfl (by decide)⟩

/-- C8 (code defect): the configuration surface the spec lists for the core is
indeed read by SessionManager._create_client and _keepalive_loop, but none of
those attribute names is declared by the SDKConfig dataclass that the session
manager is typed against, and MexcFuturesWebSocket.connect reads a proxy
attribute that the WebSocketConfig dataclass does not declare either; so the
attribute reads fail on every config object constructed from utils.py. -/
theorem c8_config_fields_not_declared :
    (MexcCfg.specListedSessionReads.all fun f =>
        MexcCfg.sessionManagerConfigReads.contains f
        && !(MexcCfg.sdkConfigFields.contains f)) = true
    ∧ MexcCfg.wsConnectConfigReads.contains "proxy" = true
    ∧ MexcCfg.webSocketConfigFields.contains "proxy" = false := by decide

/-- C2: login() on a disconnected client fails synchronously with the
precondition error (MexcWebSocketError, the AuthenticationRequiredError of the
spec taxonomy) and sends nothing; set_personal_filter() on a client that is
not logged in likewise fails synchronously and sends nothing. -/
theorem c2_precondition_failures (cfg : MexcWs.WsCfg)
    (sig : String → String → String) (reqTime : String) (s : MexcWs.WsState)
    (subscribe : Bool) (filters : Option (List MexcWs.JVal)) :
    (s.isConnected = false →
      MexcWs.login cfg sig reqTime s subscribe
        = (.error (.wsError "WebSocket not connected"), []))
    ∧ (s.isLoggedIn = false →
      MexcWs.set_personal_filter s filters
        = (.error (.wsError "Must login first before setting filters"), [])) := by
  constructor
  · intro h; simp [MexcWs.login, h]
  · intro h; simp [MexcWs.set_personal_filter, h]

/-- Witness for C2 on the fresh client state. -/
theorem c2_witness :
    ((MexcWs.initWsState MexcWs.demoCfg).isConnected = false
      ∧ MexcWs.login MexcWs.demoCfg MexcWs.demoSig "1700000000000"
          (MexcWs.initWsState MexcWs.demoCfg) true
        = (.error (.wsError "WebSocket not connected"), []))
    ∧ ((MexcWs.initWsState MexcWs.demoCfg).isLoggedIn = false
      ∧ MexcWs.set_personal_filter (MexcWs.initWsState MexcWs.demoCfg) none
        = (.error (.wsError "Must login first before setting filters"), [])) := by
  have h := c2_precondition_failures MexcWs.demoCfg MexcWs.demoSig "1700000000000"
    (MexcWs.initWsState MexcWs.demoCfg) true none
  exact ⟨⟨rfl, h.1 rfl⟩, ⟨rfl, h.2 rfl⟩⟩

/-- C7: SessionManager.close and MexcFuturesWebSocket.disconnect are each
idempotent from every state, and afterwards the session is inactive and the
stream client is disconnected, logged out, with auto-reconnect disabled. -/
theorem c7_close_disconnect_idempotent :
    (∀ s : MexcSession.SessionState,
        MexcSession.close (MexcSession.close s) = MexcSession.close s
        ∧ MexcSession.is_active (MexcSession.close s) = false)
    ∧ (∀ s : MexcWs.WsState,
        MexcWs.disconnect (MexcWs.disconnect s) = MexcWs.disconnect s
        ∧ (MexcWs.disconnect s).isConnected = false
        ∧ (MexcWs.disconnect s).isLoggedIn = false
        ∧ (MexcWs.disconnect s).shouldReconnect = false) :=
  ⟨fun _ => ⟨rfl, rfl⟩, fun _ => ⟨rfl, rfl, rfl, rfl⟩⟩

/-- C9: a push.ticker frame with data D produces exactly one ticker event
carrying exactly D; any data-update frame whose string channel is not in
channel_map produces exactly one generic message event carrying the full
envelope, and in particular a push.unknown frame does so through the whole
dispatch chain. -/
theorem c9_channel_mapping (s : MexcWs.WsState) (d msg : MexcWs.JVal)
    (c : String) (hch : MexcWs.jget msg "channel" = some (.jstr c))
    (hunmapped : MexcWs.lookupStr MexcWs.channel_map c = none) :
    MexcWs.handle_message s (.jobj [("channel", .jstr "push.ticker"), ("data", d)])
      = (s, [.dataEv "ticker" (some d)])
    ∧ MexcWs.handle_data_update s msg = (s, [.messageEv msg])
    ∧ MexcWs.handle_message s (.jobj [("channel", .jstr "push.unknown"), ("data", d)])
      = (s, [.messageEv (.jobj [("channel", .jstr "push.unknown"), ("data", d)])]) := by
  refine ⟨rfl, ?_, rfl⟩
  unfold MexcWs.handle_data_update
  simp only [hch, hunmapped]

/-- Witness for C9 on concrete ticker and unknown-channel frames. -/
theorem c9_witness :
    MexcWs.jget (.jobj [("channel", .jstr "push.unknown"), ("data", .jnum 1)])
        "channel" = some (.jstr "push.unknown")
    ∧ MexcWs.lookupStr MexcWs.channel_map "push.unknown" = none
    ∧ MexcWs.handle_message (MexcWs.initWsState MexcWs.demoCfg)
        (.jobj [("channel", .jstr "push.ticker"),
                ("data", .jobj [("lastPrice", .jnum 100)])])
      = (MexcWs.initWsState MexcWs.demoCfg,
         [.dataEv "ticker" (some (.jobj [("lastPrice", .jnum 100)]))])
    ∧ MexcWs.handle_data_update (MexcWs.initWsState MexcWs.demoCfg)
        (.jobj [("channel", .jstr "push.unknown"), ("data", .jnum 1)])
      = (MexcWs.initWsState MexcWs.demoCfg,
         [.messageEv (.jobj [("channel", .jstr "push.unknown"), ("data", .jnum 1)])]) := by
  have h := c9_channel_mapping (MexcWs.initWsState MexcWs.demoCfg)
    (.jobj [("lastPrice", .jnum 100)])
    (.jobj [("channel", .jstr "push.unknown"), ("data", .jnum 1)])
    "push.unknown" rfl rfl
  exact ⟨rfl, rfl, h.1, h.2.1⟩

/-- C10: in every state without a live connected socket, each public
subscribe/unsubscribe helper returns normally and sends nothing, because _send
silently drops the frame; subscribe_to_kline with a valid interval does so as
well (and raising is left to login and set_personal_filter preconditions). -/
theorem c10_subscriptions_silently_drop (s : MexcWs.WsState)
    (symbol interval : String) (gz compress : Bool) (limit : ℕ)
    (m : MexcWs.JVal) (h : s.isConnected = false ∨ s.ws = none) :
    MexcWs.sendMsg s m = []
    ∧ MexcWs.subscribe_to_ticker s symbol = []
    ∧ MexcWs.unsubscribe_from_ticker s symbol = []
    ∧ MexcWs.subscribe_to_all_tickers s gz = []
    ∧ MexcWs.unsubscribe_from_all_tickers s = []
    ∧ MexcWs.subscribe_to_deals s symbol = []
    ∧ MexcWs.unsubscribe_from_deals s symbol = []
    ∧ MexcWs.subscribe_to_depth s symbol compress = []
    ∧ MexcWs.subscribe_to_full_depth s symbol limit = []
    ∧ MexcWs.unsubscribe_from_depth s symbol = []
    ∧ MexcWs.unsubscribe_from_full_depth s symbol = []
    ∧ (MexcWs.KLINE_INTERVALS.contains interval = true →
        MexcWs.subscribe_to_kline s symbol interval = (.ok (), []))
    ∧ MexcWs.unsubscribe_from_kline s symbol = []
    ∧ MexcWs.subscribe_to_funding_rate s symbol = []
    ∧ MexcWs.unsubscribe_from_funding_rate s symbol = []
    ∧ MexcWs.subscribe_to_index_price s symbol = []
    ∧ MexcWs.unsubscribe_from_index_price s symbol = []
    ∧ MexcWs.subscribe_to_fair_price s symbol = []
    ∧ MexcWs.unsubscribe_from_fair_price s symbol = [] := by
  have hd : ∀ mm, MexcWs.sendMsg s mm = [] := fun mm => MexcWs.sendMsg_drop h mm
  refine ⟨hd m, hd _, hd _, hd _, hd _, hd _, hd _, hd _, hd _, hd _, hd _, ?_,
    hd _, hd _, hd _, hd _, hd _, hd _, hd _⟩
  intro hi
  unfold MexcWs.subscribe_to_kline
  rw [hi]
  simp [hd]

/-- Witness for C10 on the fresh (disconnected) client state. -/
theorem c10_witness :
    ((MexcWs.initWsState MexcWs.demoCfg).isConnected = false
      ∨ (MexcWs.initWsState MexcWs.demoCfg).ws = none)
    ∧ MexcWs.subscribe_to_ticker (MexcWs.initWsState MexcWs.demoCfg) "BTC_USDT" = []
    ∧ MexcWs.subscribe_to_kline (MexcWs.initWsState MexcWs.demoCfg) "BTC_USDT" "Min1"
        = (.ok (), []) := by
  have h := c10_subscriptions_silently_drop (MexcWs.initWsState MexcWs.demoCfg)
    "BTC_USDT" "Min1" false false 20 (.jnull) (Or.inl rfl)
  exact ⟨Or.inl rfl, h.2.1, (h.2.2.2.2.2.2.2.2.2.2.2).1 rfl⟩

/-- C3 counterexample: the claim as stated is false, because its consequence
clause fails on the trace connect, successful login acknowledgement, connect
again: connect() never touches the logged-in flag, so after a second connect()
with no intervening disconnection the client is still logged in although no
acknowledgement was processed after the most recent connect. -/
theorem c3_counterexample : ¬ MexcWs.claimC3 MexcWs.demoCfg := by
  intro h
  have hlog : (MexcWs.wsRun MexcWs.demoCfg (MexcWs.initWsState MexcWs.demoCfg)
      [.opConnect, .opRecvMsg MexcWs.loginOkMsg, .opConnect]).isLoggedIn = true := rfl
  have hack := h.2.2 [.opConnect, .opRecvMsg MexcWs.loginOkMsg, .opConnect] hlog
  have hfalse : MexcWs.ackAfterLastConnect
      [.opConnect, .opRecvMsg MexcWs.loginOkMsg, .opConnect] = false := rfl
  rw [hfalse] at hack
  exact Bool.noConfusion hack

/-- C3 amended: logged_in is set to true only by processing a successful
rs.login acknowledgement, and every disconnection (explicit disconnect() call
or transport-level closure observed by the receive loop) resets logged_in to
false; hence logged_in = true implies a successful login acknowledgement was
processed after the most recent disconnection.  (The original consequence,
relative to the most recent connect, fails because a repeated connect()
without an intervening disconnection preserves logged_in.) -/
theorem c3_loggedIn_invariant (cfg : MexcWs.WsCfg) :
    (∀ (s : MexcWs.WsState) (op : MexcWs.WsOp),
        (MexcWs.wsStep cfg s op).isLoggedIn = true →
        s.isLoggedIn = true ∨ MexcWs.isLoginSuccessOp op = true)
    ∧ (∀ (s : MexcWs.WsState) (op : MexcWs.WsOp),
        MexcWs.isDisconnectionOp op = true →
        (MexcWs.wsStep cfg s op).isLoggedIn = false)
    ∧ (∀ ops : List MexcWs.WsOp,
        (MexcWs.wsRun cfg (MexcWs.initWsState cfg) ops).isLoggedIn = true →
        MexcWs.ackAfterLastDisconnection ops = true) :=
  ⟨fun s op h => MexcWs.wsStep_loggedIn_only_ack cfg s op h,
   fun s op h => MexcWs.wsStep_disconnection_loggedOut cfg s op h,
   fun ops h => MexcWs.wsRun_loggedIn_ack cfg ops h⟩

/-- Witness for the amended C3 on the trace connect then successful login. -/
theorem c3_witness :
    (MexcWs.wsRun MexcWs.demoCfg (MexcWs.initWsState MexcWs.demoCfg)
        [.opConnect, .opRecvMsg MexcWs.loginOkMsg]).isLoggedIn = true
    ∧ MexcWs.ackAfterLastDisconnection
        [.opConnect, .opRecvMsg MexcWs.loginOkMsg] = true :=
  ⟨rfl, (c3_loggedIn_invariant MexcWs.demoCfg).2.2
    [.opConnect, .opRecvMsg MexcWs.loginOkMsg] rfl⟩

/-- C4: for every inbound rs.login frame, if the data is the success literal
or an object whose code field equals zero (Python equality, so the number 0,
with False also comparing equal), the logged-in flag becomes true and exactly
one login event fires carrying the frame; for any other data the flag becomes
(or stays) false and exactly one login_failed event fires with the data. -/
theorem c4_login_ack (s : MexcWs.WsState) (msg : MexcWs.JVal)
    (hch : MexcWs.channelIs (MexcWs.jget msg "channel") "rs.login" = true) :
    (MexcWs.isSuccessData (MexcWs.jget msg "data") = true →
      MexcWs.handle_message s msg
        = ({ s with isLoggedIn := true }, [.loginEv msg]))
    ∧ (MexcWs.isSuccessData (MexcWs.jget msg "data") = false →
      MexcWs.handle_message s msg
        = ({ s with isLoggedIn := false },
           [.loginFailedEv (MexcWs.jget msg "data")])) := by
  have hpong : MexcWs.channelIs (MexcWs.jget msg "channel") "pong" = false :=
    MexcWs.channelIs_ne hch (by decide)
  constructor <;> intro hd <;>
    simp [MexcWs.handle_message, hpong, hch, hd]

/-- Witness for C4 on the two scripted acknowledgement frames. -/
theorem c4_witness :
    (MexcWs.channelIs (MexcWs.jget MexcWs.loginOkMsg "channel") "rs.login" = true
      ∧ MexcWs.isSuccessData (MexcWs.jget MexcWs.loginOkMsg "data") = true
      ∧ MexcWs.handle_message (MexcWs.initWsState MexcWs.demoCfg) MexcWs.loginOkMsg
        = ({ MexcWs.initWsState MexcWs.demoCfg with isLoggedIn := true },
           [.loginEv MexcWs.loginOkMsg]))
    ∧ (MexcWs.isSuccessData (some (.jobj [("code", .jnum 1)])) = false
      ∧ MexcWs.handle_message (MexcWs.initWsState MexcWs.demoCfg)
          (.jobj [("channel", .jstr "rs.login"), ("data", .jobj [("code", .jnum 1)])])
        = ({ MexcWs.initWsState MexcWs.demoCfg with isLoggedIn := false },
           [.loginFailedEv (some (.jobj [("code", .jnum 1)]))])) := by
  have h1 := c4_login_ack (MexcWs.initWsState MexcWs.demoCfg) MexcWs.loginOkMsg rfl
  have h2 := c4_login_ack (MexcWs.initWsState MexcWs.demoCfg)
    (.jobj [("channel", .jstr "rs.login"), ("data", .jobj [("code", .jnum 1)])]) rfl
  exact ⟨⟨rfl, rfl, h1.1 rfl⟩, ⟨rfl, h2.2 rfl⟩⟩

/-- C5: a transport-level closure observed by the receive loop emits exactly
one disconnected event with the close code and reason, clears connected and
logged_in, breaks the loop and, with auto-reconnect enabled, schedules the
reconnection; the first connect attempt comes after exactly one sleep of
reconnect_interval, and a run of n failing attempts sleeps the same fixed
interval before each attempt, changes nothing, and is still pending
afterwards: reconnection is indefinite, with no backoff and no retry cap. -/
theorem c5_closure_and_reconnect (cfg : MexcWs.WsCfg) (s : MexcWs.WsState)
    (code : ℕ) (reason : String) (hconn : s.isConnected = true)
    (har : s.shouldReconnect = true) :
    (MexcWs.recvStep s (.closed code reason)).2.1 = [.disconnectedEv code reason]
    ∧ (MexcWs.recvStep s (.closed code reason)).1.isConnected = false
    ∧ (MexcWs.recvStep s (.closed code reason)).1.isLoggedIn = false
    ∧ (MexcWs.recvStep s (.closed code reason)).2.2.1 = true
    ∧ (MexcWs.recvStep s (.closed code reason)).2.2.2 = true
    ∧ (∀ ok : Bool, (MexcWs.schedule_reconnect cfg
        (MexcWs.recvStep s (.closed code reason)).1 [ok]).delays
          = [cfg.reconnectInterval])
    ∧ (∀ n : ℕ, MexcWs.schedule_reconnect cfg
        (MexcWs.recvStep s (.closed code reason)).1 (List.replicate n false)
          = { state := (MexcWs.recvStep s (.closed code reason)).1, events := [],
              delays := List.replicate n cfg.reconnectInterval,
              pending := true }) := by
  have hs1 : (MexcWs.recvStep s (.closed code reason)).1
      = { s with isConnected := false, isLoggedIn := false } := rfl
  have hr1 : ({ s with isConnected := false, isLoggedIn := false }
      : MexcWs.WsState).shouldReconnect = true := har
  refine ⟨rfl, rfl, rfl, rfl, har, ?_, ?_⟩
  · intro ok
    cases ok
    · rw [hs1]
      unfold MexcWs.schedule_reconnect
      rw [if_neg (by simp), if_pos hr1]
      rfl
    · rw [hs1]
      rfl
  · intro n
    rw [hs1]
    exact MexcWs.schedule_reconnect_all_fail cfg n _ hr1

/-- Witness for C5 on a concrete connected client and a close with code 1006. -/
theorem c5_witness :
    (MexcWs.demoConnected.isConnected = true
      ∧ MexcWs.demoConnected.shouldReconnect = true)
    ∧ (MexcWs.recvStep MexcWs.demoConnected (.closed 1006 "abnormal")).2.1
      = [.disconnectedEv 1006 "abnormal"]
    ∧ MexcWs.schedule_reconnect MexcWs.demoCfg
        (MexcWs.recvStep MexcWs.demoConnected (.closed 1006 "abnormal")).1
        (List.replicate 3 false)
      = { state := (MexcWs.recvStep MexcWs.demoConnected (.closed 1006 "abnormal")).1,
          events := [],
          delays := List.replicate 3 MexcWs.demoCfg.reconnectInterval,
          pending := true } := by
  have h := c5_closure_and_reconnect MexcWs.demoCfg MexcWs.demoConnected
    1006 "abnormal" rfl rfl
  exact ⟨⟨rfl, rfl⟩, h.1, h.2.2.2.2.2.2 3⟩
